import Mathlib

/-!
mruby-esp32-ledc: the LEDC binding of `src/ledc.c`

A shallow embedding of the four method bodies of `src/ledc.c`
(`mrb_esp32_ledc_timer_config`, `mrb_esp32_ledc_channel_config`,
`mrb_esp32_ledc_write`, `mrb_esp32_ledc_detach`) and of the gem initialiser
`mrb_mruby_esp32_ledc_gem_init`.

The interpreter API (`mruby.h`, `mruby/value.h`) and the vendor driver
(`driver/ledc.h`, `driver/gpio.h`) are external collaborators; each entry of
theirs that `ledc.c` uses is rendered by a definition of the same name.  The
driver is a mock: every call the binding makes is appended to a trace, and the
status the driver answers is an arbitrary function of the calls made so far and
of the call being made, so a driver with any internal state is covered.

Integers.  `mrb_int` is the 32-bit `int` of the target.  The `int` fields and
parameters of the driver (`gpio_num` and `hpoint` of `ledc_channel_config_t`,
`func` of `gpio_iomux_out`) receive the value of the mruby integer unchanged.
The enumerations `ledc_mode_t`, `ledc_timer_t`, `ledc_timer_bit_t` and
`ledc_channel_t` have no negative enumerator and are unsigned 32-bit on the
target, as are the field `freq_hz` and the parameter `duty`; the conversion of
an `mrb_int` to them is written out as `% 2 ^ 32`.  The pin parameter of
`gpio_iomux_out` is `uint8_t`; the conversion to it is `% 2 ^ 8`.
-/

namespace LEDC

/-! ## mruby values -/

/-- An mruby value, by kind.  Only the kind and, for an integer, its payload
matter to `ledc.c`. -/
inductive mrb_value
  | nil
  | false_
  | true_
  | fixnum (i : Int)
  | float (mantissa exponent : Int)
  | symbol (name : String)
  | string (s : String)
  | object (id : Nat)
  deriving DecidableEq, Repr

/-- The value `mrb_nil_value()`. -/
def mrb_nil_value : mrb_value := .nil

/-- The test `mrb_fixnum_p(v)`: is `v` an integer. -/
def mrb_fixnum_p : mrb_value → Bool
  | .fixnum _ => true
  | _ => false

/-- The accessor `mrb_fixnum(v)`: the payload of an integer.  `ledc.c` reads it
only after `mrb_fixnum_p(v)` held; the value 0 given to the other kinds is never
used. -/
def mrb_fixnum : mrb_value → Int
  | .fixnum i => i
  | _ => 0

/-- The value `mrb_fixnum_value(i)`. -/
def mrb_fixnum_value (i : Int) : mrb_value := .fixnum i

/-! ## The driver interface (`driver/ledc.h`, `driver/gpio.h`) -/

/-- Conversion of an `mrb_int` to an unsigned 32-bit field or parameter of the
driver (`uint32_t`, and the enumerations `ledc_mode_t`, `ledc_timer_t`,
`ledc_timer_bit_t`, `ledc_channel_t`): the value modulo 2^32. -/
def to_uint32 (x : Int) : Int := x % 2 ^ 32

/-- Conversion of an `mrb_int` to a `uint8_t` parameter of the driver: the value
modulo 2^8. -/
def to_uint8 (x : Int) : Int := x % 2 ^ 8

/-- The clock sources of `ledc_clk_cfg_t`. -/
inductive ledc_clk_cfg_t
  | LEDC_AUTO_CLK
  | LEDC_USE_REF_TICK
  | LEDC_USE_APB_CLK
  | LEDC_USE_RTC8M_CLK
  deriving DecidableEq, Repr

/-- The interrupt modes of `ledc_intr_type_t`. -/
inductive ledc_intr_type_t
  | LEDC_INTR_DISABLE
  | LEDC_INTR_FADE_END
  deriving DecidableEq, Repr

/-- The fields of `ledc_timer_config_t` that `ledc.c` initialises; `speed_mode`
(`ledc_mode_t`), `timer_num` (`ledc_timer_t`), `duty_resolution`
(`ledc_timer_bit_t`) and `freq_hz` (`uint32_t`) are unsigned 32-bit. -/
structure ledc_timer_config_t where
  speed_mode : Int
  timer_num : Int
  duty_resolution : Int
  freq_hz : Int
  clk_cfg : ledc_clk_cfg_t
  deriving DecidableEq, Repr

/-- The fields of `ledc_channel_config_t` that `ledc.c` initialises; `gpio_num`
and `hpoint` are `int`, `speed_mode` (`ledc_mode_t`), `timer_sel`
(`ledc_timer_t`), `channel` (`ledc_channel_t`) and `duty` (`uint32_t`) are
unsigned 32-bit. -/
structure ledc_channel_config_t where
  gpio_num : Int
  speed_mode : Int
  timer_sel : Int
  channel : Int
  intr_type : ledc_intr_type_t
  duty : Int
  hpoint : Int
  deriving DecidableEq, Repr

/-- The function number `PIN_FUNC_GPIO`; `ledc.c` line 84 gives its value. -/
def PIN_FUNC_GPIO : Int := 2

/-- One call into the driver layer, with the arguments the driver receives. -/
inductive DriverCall
  | ledc_timer_config (cfg : ledc_timer_config_t)
  | ledc_channel_config (cfg : ledc_channel_config_t)
  | ledc_set_duty (speed_mode channel duty : Int)
  | ledc_update_duty (speed_mode channel : Int)
  | gpio_iomux_out (gpio_num func : Int) (oe_inv : Bool)
  deriving DecidableEq, Repr

/-- Is the call a `gpio_iomux_out`. -/
def DriverCall.is_gpio_iomux_out : DriverCall → Bool
  | .gpio_iomux_out _ _ _ => true
  | _ => false

/-- The recorded driver calls, oldest first. -/
abbrev Trace := List DriverCall

/-- A status of type `esp_err_t`. -/
abbrev esp_err_t := Int

/-- The status `ESP_OK`. -/
def ESP_OK : esp_err_t := 0

/-- A mock driver: the status it answers to a call, given the calls made before. -/
abbrev Driver := Trace → DriverCall → esp_err_t

/-- The driver that answers `ESP_OK` to every call. -/
def okDriver : Driver := fun _ _ => ESP_OK

/-- Make one driver call: record it and return the driver's status. -/
def driverCall (drv : Driver) (c : DriverCall) (tr : Trace) : esp_err_t × Trace :=
  (drv tr c, tr ++ [c])

/-- The driver entry `ledc_timer_config(&cfg)`. -/
def ledc_timer_config (drv : Driver) (cfg : ledc_timer_config_t) (tr : Trace) :
    esp_err_t × Trace :=
  driverCall drv (.ledc_timer_config cfg) tr

/-- The driver entry `ledc_channel_config(&cfg)`. -/
def ledc_channel_config (drv : Driver) (cfg : ledc_channel_config_t) (tr : Trace) :
    esp_err_t × Trace :=
  driverCall drv (.ledc_channel_config cfg) tr

/-- The driver entry `ledc_set_duty(speed_mode, channel, duty)`; the parameters
are a `ledc_mode_t`, a `ledc_channel_t` and a `uint32_t`, all unsigned 32-bit. -/
def ledc_set_duty (drv : Driver) (speed_mode channel duty : Int) (tr : Trace) :
    esp_err_t × Trace :=
  driverCall drv
    (.ledc_set_duty (to_uint32 speed_mode) (to_uint32 channel) (to_uint32 duty)) tr

/-- The driver entry `ledc_update_duty(speed_mode, channel)`; the parameters are
a `ledc_mode_t` and a `ledc_channel_t`, both unsigned 32-bit. -/
def ledc_update_duty (drv : Driver) (speed_mode channel : Int) (tr : Trace) :
    esp_err_t × Trace :=
  driverCall drv (.ledc_update_duty (to_uint32 speed_mode) (to_uint32 channel)) tr

/-- The driver entry `gpio_iomux_out(gpio_num, func, oe_inv)`; `gpio_num` is a
`uint8_t` parameter, `func` an `int`.  It returns `void`: whatever the mock
answers is dropped. -/
def gpio_iomux_out (drv : Driver) (gpio_num func : Int) (oe_inv : Bool) (tr : Trace) :
    Trace :=
  (driverCall drv (.gpio_iomux_out (to_uint8 gpio_num) func oe_inv) tr).2

/-! ## Outcomes of a method body -/

/-- The exceptions the interpreter raises around these methods. -/
inductive Exc
  | ArgumentError
  | NoMethodError
  deriving DecidableEq, Repr

/-- How a method call ends: it returns a value, the interpreter raises, or the
process is aborted. -/
inductive Outcome
  | returned (v : mrb_value)
  | raised (e : Exc)
  | aborted
  deriving DecidableEq, Repr

/-- The argument fetch `mrb_get_args(mrb, format, ...)` for a format made of
`o` specifiers only: each specifier takes one argument of any kind, and the
interpreter raises `ArgumentError` when the number of arguments differs from
the number of specifiers. -/
def mrb_get_args (format : List Char) (argv : List mrb_value) : Option (List mrb_value) :=
  if argv.length = format.length then some argv else none

/-- Modelled from the spec: `ESP_ERROR_CHECK` is a macro of the vendor SDK, not
part of `ledc.c`.  Per the spec, a driver failure aborts the process: when the
status is `ESP_OK` execution continues with the rest of the body, otherwise the
process is aborted on the spot. -/
def ESP_ERROR_CHECK (r : esp_err_t × Trace) (k : Trace → Outcome × Trace) :
    Outcome × Trace :=
  if r.1 = ESP_OK then k r.2 else (.aborted, r.2)

/-! ## The four method bodies -/

/-- The body of `mrb_esp32_ledc_timer_config` (`ledc.c` lines 8-29). -/
def mrb_esp32_ledc_timer_config (drv : Driver) (self : mrb_value)
    (argv : List mrb_value) (tr : Trace) : Outcome × Trace :=
  match mrb_get_args ['o', 'o', 'o', 'o'] argv with
  | some [group, timer, res, freq] =>
    if !mrb_fixnum_p group || !mrb_fixnum_p timer || !mrb_fixnum_p res
        || !mrb_fixnum_p freq then
      (.returned mrb_nil_value, tr)
    else
      let ledc_timer : ledc_timer_config_t :=
        { speed_mode := to_uint32 (mrb_fixnum group)
          timer_num := to_uint32 (mrb_fixnum timer)
          duty_resolution := to_uint32 (mrb_fixnum res)
          freq_hz := to_uint32 (mrb_fixnum freq)
          clk_cfg := .LEDC_AUTO_CLK }
      ESP_ERROR_CHECK (ledc_timer_config drv ledc_timer tr) fun tr1 =>
      (.returned self, tr1)
  | _ => (.raised .ArgumentError, tr)

/-- The body of `mrb_esp32_ledc_channel_config` (`ledc.c` lines 31-55). -/
def mrb_esp32_ledc_channel_config (drv : Driver) (self : mrb_value)
    (argv : List mrb_value) (tr : Trace) : Outcome × Trace :=
  match mrb_get_args ['o', 'o', 'o', 'o'] argv with
  | some [pin, group, timer, ch] =>
    if !mrb_fixnum_p pin || !mrb_fixnum_p group || !mrb_fixnum_p timer
        || !mrb_fixnum_p ch then
      (.returned mrb_nil_value, tr)
    else
      let ledc_channel : ledc_channel_config_t :=
        { gpio_num := mrb_fixnum pin
          speed_mode := to_uint32 (mrb_fixnum group)
          timer_sel := to_uint32 (mrb_fixnum timer)
          channel := to_uint32 (mrb_fixnum ch)
          intr_type := .LEDC_INTR_DISABLE
          duty := 0
          hpoint := 0 }
      ESP_ERROR_CHECK (ledc_channel_config drv ledc_channel tr) fun tr1 =>
      (.returned self, tr1)
  | _ => (.raised .ArgumentError, tr)

/-- The body of `mrb_esp32_ledc_write` (`ledc.c` lines 57-72). -/
def mrb_esp32_ledc_write (drv : Driver) (self : mrb_value)
    (argv : List mrb_value) (tr : Trace) : Outcome × Trace :=
  match mrb_get_args ['o', 'o', 'o'] argv with
  | some [group, ch, duty] =>
    if !mrb_fixnum_p group || !mrb_fixnum_p ch || !mrb_fixnum_p duty then
      (.returned mrb_nil_value, tr)
    else
      ESP_ERROR_CHECK
        (ledc_set_duty drv (mrb_fixnum group) (mrb_fixnum ch) (mrb_fixnum duty) tr)
        fun tr1 =>
      ESP_ERROR_CHECK
        (ledc_update_duty drv (mrb_fixnum group) (mrb_fixnum ch) tr1)
        fun tr2 =>
      (.returned self, tr2)
  | _ => (.raised .ArgumentError, tr)

/-- The body of `mrb_esp32_ledc_detach` (`ledc.c` lines 74-89). -/
def mrb_esp32_ledc_detach (drv : Driver) (self : mrb_value)
    (argv : List mrb_value) (tr : Trace) : Outcome × Trace :=
  match mrb_get_args ['o'] argv with
  | some [pin] =>
    if !mrb_fixnum_p pin then
      (.returned mrb_nil_value, tr)
    else
      (.returned self, gpio_iomux_out drv (mrb_fixnum pin) PIN_FUNC_GPIO false tr)
  | _ => (.raised .ArgumentError, tr)

/-! ## The gem initialiser -/

/-- The C functions a method name can be bound to. -/
inductive mrb_func_t
  | mrb_esp32_ledc_timer_config
  | mrb_esp32_ledc_channel_config
  | mrb_esp32_ledc_write
  | mrb_esp32_ledc_detach
  deriving DecidableEq, Repr

/-- The body a C function pointer stands for. -/
def mrb_func_t.body :
    mrb_func_t → Driver → mrb_value → List mrb_value → Trace → Outcome × Trace
  | .mrb_esp32_ledc_timer_config => LEDC.mrb_esp32_ledc_timer_config
  | .mrb_esp32_ledc_channel_config => LEDC.mrb_esp32_ledc_channel_config
  | .mrb_esp32_ledc_write => LEDC.mrb_esp32_ledc_write
  | .mrb_esp32_ledc_detach => LEDC.mrb_esp32_ledc_detach

/-- One registration: the public name, the C function, the declared arity. -/
structure Method where
  name : String
  func : mrb_func_t
  aspec : Nat
  deriving DecidableEq, Repr

/-- The part of the interpreter state `mrb_state` that the gem initialiser
writes: the method table of module `ESP32::LEDC` and the constants table of
module `ESP32::Constants`. -/
structure mrb_state where
  ledc : List Method
  constants : List (String × mrb_value)
  deriving DecidableEq, Repr

/-- A fresh interpreter: both tables are empty. -/
def mrb_open : mrb_state := { ledc := [], constants := [] }

/-- The arity declaration `MRB_ARGS_REQ(n)`: `n` required arguments. -/
def MRB_ARGS_REQ (n : Nat) : Nat := n

/-- The registration `mrb_define_module_function(mrb, ledc, name, func, aspec)`:
the name is bound to the function; an earlier binding of the name is replaced. -/
def mrb_define_module_function (mrb : mrb_state) (name : String) (func : mrb_func_t)
    (aspec : Nat) : mrb_state :=
  { mrb with
    ledc := mrb.ledc.filter (fun m => m.name != name)
      ++ [{ name := name, func := func, aspec := aspec }] }

/-- The constant definition `mrb_define_const(mrb, constants, name, v)`: the
name is bound to the value; an earlier binding of the name is replaced. -/
def mrb_define_const (mrb : mrb_state) (name : String) (v : mrb_value) : mrb_state :=
  { mrb with constants := mrb.constants.filter (fun e => e.1 != name) ++ [(name, v)] }

/-- The macro `define_const(SYM)` (`ledc.c` lines 106-109): the constant named by
the spelling of `SYM` gets the integer value of the driver symbol `SYM`.  The
values of the driver symbols come from `driver/ledc.h`; they are the parameter
`sym`. -/
def define_const (sym : String → Int) (mrb : mrb_state) (SYM : String) : mrb_state :=
  mrb_define_const mrb SYM (mrb_fixnum_value (sym SYM))

/-- The gem initialiser `mrb_mruby_esp32_ledc_gem_init` (`ledc.c` lines 91-156):
four method registrations on `ESP32::LEDC`, then 37 constant definitions on
`ESP32::Constants`. -/
def mrb_mruby_esp32_ledc_gem_init (sym : String → Int) (mrb : mrb_state) : mrb_state :=
  let mrb := mrb_define_module_function mrb "timer_config"
    .mrb_esp32_ledc_timer_config (MRB_ARGS_REQ 4)
  let mrb := mrb_define_module_function mrb "channel_config"
    .mrb_esp32_ledc_channel_config (MRB_ARGS_REQ 4)
  let mrb := mrb_define_module_function mrb "write"
    .mrb_esp32_ledc_write (MRB_ARGS_REQ 3)
  let mrb := mrb_define_module_function mrb "detach"
    .mrb_esp32_ledc_write (MRB_ARGS_REQ 1)
  let mrb := define_const sym mrb "LEDC_HIGH_SPEED_MODE"
  let mrb := define_const sym mrb "LEDC_LOW_SPEED_MODE"
  let mrb := define_const sym mrb "LEDC_CHANNEL_0"
  let mrb := define_const sym mrb "LEDC_CHANNEL_1"
  let mrb := define_const sym mrb "LEDC_CHANNEL_2"
  let mrb := define_const sym mrb "LEDC_CHANNEL_3"
  let mrb := define_const sym mrb "LEDC_CHANNEL_4"
  let mrb := define_const sym mrb "LEDC_CHANNEL_5"
  let mrb := define_const sym mrb "LEDC_CHANNEL_6"
  let mrb := define_const sym mrb "LEDC_CHANNEL_7"
  let mrb := define_const sym mrb "LEDC_CHANNEL_MAX"
  let mrb := define_const sym mrb "LEDC_TIMER_0"
  let mrb := define_const sym mrb "LEDC_TIMER_1"
  let mrb := define_const sym mrb "LEDC_TIMER_2"
  let mrb := define_const sym mrb "LEDC_TIMER_3"
  let mrb := define_const sym mrb "LEDC_TIMER_MAX"
  let mrb := define_const sym mrb "LEDC_TIMER_1_BIT"
  let mrb := define_const sym mrb "LEDC_TIMER_2_BIT"
  let mrb := define_const sym mrb "LEDC_TIMER_3_BIT"
  let mrb := define_const sym mrb "LEDC_TIMER_4_BIT"
  let mrb := define_const sym mrb "LEDC_TIMER_5_BIT"
  let mrb := define_const sym mrb "LEDC_TIMER_6_BIT"
  let mrb := define_const sym mrb "LEDC_TIMER_7_BIT"
  let mrb := define_const sym mrb "LEDC_TIMER_8_BIT"
  let mrb := define_const sym mrb "LEDC_TIMER_9_BIT"
  let mrb := define_const sym mrb "LEDC_TIMER_10_BIT"
  let mrb := define_const sym mrb "LEDC_TIMER_11_BIT"
  let mrb := define_const sym mrb "LEDC_TIMER_12_BIT"
  let mrb := define_const sym mrb "LEDC_TIMER_13_BIT"
  let mrb := define_const sym mrb "LEDC_TIMER_14_BIT"
  let mrb := define_const sym mrb "LEDC_TIMER_15_BIT"
  let mrb := define_const sym mrb "LEDC_TIMER_16_BIT"
  let mrb := define_const sym mrb "LEDC_TIMER_17_BIT"
  let mrb := define_const sym mrb "LEDC_TIMER_18_BIT"
  let mrb := define_const sym mrb "LEDC_TIMER_19_BIT"
  let mrb := define_const sym mrb "LEDC_TIMER_20_BIT"
  let mrb := define_const sym mrb "LEDC_TIMER_BIT_MAX"
  mrb

/-! ## Calls through the public interface -/

/-- The module object `ESP32::LEDC`, the receiver of a module-function call. -/
def ledc_module : mrb_value := .object 0

/-- The call `ESP32::LEDC.name(argv...)`: the method table is searched for the
name and the bound C function runs on the arguments; an unbound name raises
`NoMethodError`.  The declared arity is informative only: the interpreter does
not check it, the argument count is checked by `mrb_get_args` in the body. -/
def module_call (mrb : mrb_state) (drv : Driver) (name : String) (argv : List mrb_value)
    (tr : Trace) : Outcome × Trace :=
  match mrb.ledc.find? (fun m => m.name == name) with
  | some m => m.func.body drv ledc_module argv tr
  | none => (.raised .NoMethodError, tr)

/-- Run `k` after a call when that call returned; a raise or an abort ends the
sequence. -/
def andThen (r : Outcome × Trace) (k : Trace → Outcome × Trace) : Outcome × Trace :=
  match r.1 with
  | .returned _ => k r.2
  | _ => r

/-- A driver that fails `ledc_set_duty` with `ESP_FAIL` (-1) and accepts every
other call. -/
def failSetDuty : Driver := fun _ c =>
  match c with
  | .ledc_set_duty _ _ _ => -1
  | _ => ESP_OK

/-- A driver that fails every call with `ESP_FAIL` (-1). -/
def failDriver : Driver := fun _ _ => -1

/-- The values an unsigned 32-bit field holds: 0 to 2^32 - 1. -/
abbrev in_uint32 (x : Int) : Prop := 0 ≤ x ∧ x < 2 ^ 32

/-- The names the spec lists for the constants table: the two speed-mode groups,
channels 0-7 and the channel count, timers 0-3 and the timer count, resolutions
of 1-20 bits and the resolution count. -/
def listed_constant_names : List String :=
  ["LEDC_HIGH_SPEED_MODE", "LEDC_LOW_SPEED_MODE"]
    ++ (List.range 8).map (fun i => "LEDC_CHANNEL_" ++ toString i)
    ++ ["LEDC_CHANNEL_MAX"]
    ++ (List.range 4).map (fun i => "LEDC_TIMER_" ++ toString i)
    ++ ["LEDC_TIMER_MAX"]
    ++ (List.range 20).map (fun i => "LEDC_TIMER_" ++ toString (i + 1) ++ "_BIT")
    ++ ["LEDC_TIMER_BIT_MAX"]

/-! ## Theorems -/

/-! ### Evaluation lemmas for the four bodies -/

theorem to_uint32_of_in (x : Int) (h : in_uint32 x) : x % 2 ^ 32 = x :=
  Int.emod_eq_of_lt h.1 h.2

theorem timer_config_eval (drv : Driver) (self : mrb_value) (group timer res freq : Int)
    (tr : Trace) :
    mrb_esp32_ledc_timer_config drv self
        [.fixnum group, .fixnum timer, .fixnum res, .fixnum freq] tr
      = if drv tr (.ledc_timer_config
            ⟨group % 2 ^ 32, timer % 2 ^ 32, res % 2 ^ 32, freq % 2 ^ 32, .LEDC_AUTO_CLK⟩)
            = ESP_OK
        then (.returned self,
          tr ++ [.ledc_timer_config
            ⟨group % 2 ^ 32, timer % 2 ^ 32, res % 2 ^ 32, freq % 2 ^ 32, .LEDC_AUTO_CLK⟩])
        else (.aborted,
          tr ++ [.ledc_timer_config
            ⟨group % 2 ^ 32, timer % 2 ^ 32, res % 2 ^ 32, freq % 2 ^ 32,
              .LEDC_AUTO_CLK⟩]) := by
  simp [mrb_esp32_ledc_timer_config, mrb_get_args, mrb_fixnum_p, mrb_fixnum, to_uint32,
    ESP_ERROR_CHECK, ledc_timer_config, driverCall]

theorem channel_config_eval (drv : Driver) (self : mrb_value) (pin group timer ch : Int)
    (tr : Trace) :
    mrb_esp32_ledc_channel_config drv self
        [.fixnum pin, .fixnum group, .fixnum timer, .fixnum ch] tr
      = if drv tr (.ledc_channel_config
            ⟨pin, group % 2 ^ 32, timer % 2 ^ 32, ch % 2 ^ 32, .LEDC_INTR_DISABLE, 0, 0⟩)
            = ESP_OK
        then (.returned self,
          tr ++ [.ledc_channel_config
            ⟨pin, group % 2 ^ 32, timer % 2 ^ 32, ch % 2 ^ 32, .LEDC_INTR_DISABLE, 0, 0⟩])
        else (.aborted,
          tr ++ [.ledc_channel_config
            ⟨pin, group % 2 ^ 32, timer % 2 ^ 32, ch % 2 ^ 32, .LEDC_INTR_DISABLE, 0,
              0⟩]) := by
  simp [mrb_esp32_ledc_channel_config, mrb_get_args, mrb_fixnum_p, mrb_fixnum, to_uint32,
    ESP_ERROR_CHECK, ledc_channel_config, driverCall]

theorem write_eval (drv : Driver) (self : mrb_value) (group ch duty : Int) (tr : Trace) :
    mrb_esp32_ledc_write drv self [.fixnum group, .fixnum ch, .fixnum duty] tr
      = if drv tr (.ledc_set_duty (group % 2 ^ 32) (ch % 2 ^ 32) (duty % 2 ^ 32)) = ESP_OK
        then
          if drv (tr ++ [.ledc_set_duty (group % 2 ^ 32) (ch % 2 ^ 32) (duty % 2 ^ 32)])
              (.ledc_update_duty (group % 2 ^ 32) (ch % 2 ^ 32)) = ESP_OK
          then (.returned self,
            tr ++ [.ledc_set_duty (group % 2 ^ 32) (ch % 2 ^ 32) (duty % 2 ^ 32),
                   .ledc_update_duty (group % 2 ^ 32) (ch % 2 ^ 32)])
          else (.aborted,
            tr ++ [.ledc_set_duty (group % 2 ^ 32) (ch % 2 ^ 32) (duty % 2 ^ 32),
                   .ledc_update_duty (group % 2 ^ 32) (ch % 2 ^ 32)])
        else (.aborted,
          tr ++ [.ledc_set_duty (group % 2 ^ 32) (ch % 2 ^ 32) (duty % 2 ^ 32)]) := by
  simp [mrb_esp32_ledc_write, mrb_get_args, mrb_fixnum_p, mrb_fixnum, to_uint32,
    ESP_ERROR_CHECK, ledc_set_duty, ledc_update_duty, driverCall]

theorem detach_eval (drv : Driver) (self : mrb_value) (pin : Int) (tr : Trace) :
    mrb_esp32_ledc_detach drv self [.fixnum pin] tr
      = (.returned self, tr ++ [.gpio_iomux_out (pin % 2 ^ 8) PIN_FUNC_GPIO false]) := by
  simp [mrb_esp32_ledc_detach, mrb_get_args, mrb_fixnum_p, mrb_fixnum, gpio_iomux_out,
    to_uint8, driverCall]

theorem timer_config_arity (drv : Driver) (self : mrb_value) (argv : List mrb_value)
    (tr : Trace) (hlen : argv.length ≠ 4) :
    mrb_esp32_ledc_timer_config drv self argv tr = (.raised .ArgumentError, tr) := by
  simp [mrb_esp32_ledc_timer_config, mrb_get_args, hlen]

theorem channel_config_arity (drv : Driver) (self : mrb_value) (argv : List mrb_value)
    (tr : Trace) (hlen : argv.length ≠ 4) :
    mrb_esp32_ledc_channel_config drv self argv tr = (.raised .ArgumentError, tr) := by
  simp [mrb_esp32_ledc_channel_config, mrb_get_args, hlen]

theorem write_arity (drv : Driver) (self : mrb_value) (argv : List mrb_value)
    (tr : Trace) (hlen : argv.length ≠ 3) :
    mrb_esp32_ledc_write drv self argv tr = (.raised .ArgumentError, tr) := by
  simp [mrb_esp32_ledc_write, mrb_get_args, hlen]

theorem detach_arity (drv : Driver) (self : mrb_value) (argv : List mrb_value)
    (tr : Trace) (hlen : argv.length ≠ 1) :
    mrb_esp32_ledc_detach drv self argv tr = (.raised .ArgumentError, tr) := by
  simp [mrb_esp32_ledc_detach, mrb_get_args, hlen]

/-- A list of values all of which are integers is a list of `fixnum`s. -/
theorem fixnum_of_p (a : mrb_value) (h : mrb_fixnum_p a = true) : ∃ i, a = .fixnum i := by
  cases a <;> simp_all [mrb_fixnum_p]

theorem timer_config_reject (drv : Driver) (self : mrb_value) (argv : List mrb_value)
    (tr : Trace) (hlen : argv.length = 4) (hbad : ∃ a ∈ argv, mrb_fixnum_p a = false) :
    mrb_esp32_ledc_timer_config drv self argv tr = (.returned mrb_nil_value, tr) := by
  match argv, hlen with
  | [a, b, c, d], _ =>
    simp only [List.mem_cons, List.mem_singleton, List.not_mem_nil, or_false] at hbad
    obtain ⟨x, hx, hp⟩ := hbad
    rcases hx with rfl | rfl | rfl | rfl <;>
      simp [mrb_esp32_ledc_timer_config, mrb_get_args, hp]

theorem channel_config_reject (drv : Driver) (self : mrb_value) (argv : List mrb_value)
    (tr : Trace) (hlen : argv.length = 4) (hbad : ∃ a ∈ argv, mrb_fixnum_p a = false) :
    mrb_esp32_ledc_channel_config drv self argv tr = (.returned mrb_nil_value, tr) := by
  match argv, hlen with
  | [a, b, c, d], _ =>
    simp only [List.mem_cons, List.mem_singleton, List.not_mem_nil, or_false] at hbad
    obtain ⟨x, hx, hp⟩ := hbad
    rcases hx with rfl | rfl | rfl | rfl <;>
      simp [mrb_esp32_ledc_channel_config, mrb_get_args, hp]

theorem write_reject (drv : Driver) (self : mrb_value) (argv : List mrb_value)
    (tr : Trace) (hlen : argv.length = 3) (hbad : ∃ a ∈ argv, mrb_fixnum_p a = false) :
    mrb_esp32_ledc_write drv self argv tr = (.returned mrb_nil_value, tr) := by
  match argv, hlen with
  | [a, b, c], _ =>
    simp only [List.mem_cons, List.mem_singleton, List.not_mem_nil, or_false] at hbad
    obtain ⟨x, hx, hp⟩ := hbad
    rcases hx with rfl | rfl | rfl <;>
      simp [mrb_esp32_ledc_write, mrb_get_args, hp]

theorem detach_reject (drv : Driver) (self : mrb_value) (argv : List mrb_value)
    (tr : Trace) (hlen : argv.length = 1) (hbad : ∃ a ∈ argv, mrb_fixnum_p a = false) :
    mrb_esp32_ledc_detach drv self argv tr = (.returned mrb_nil_value, tr) := by
  match argv, hlen with
  | [a], _ =>
    simp only [List.mem_cons, List.mem_singleton, List.not_mem_nil, or_false] at hbad
    obtain ⟨x, rfl, hp⟩ := hbad
    simp [mrb_esp32_ledc_detach, mrb_get_args, hp]

/-! ### C1 -/

/-- C1: for each of the four bodies and every argument list of its arity (4, 4,
3, 1) that holds at least one non-integer, in any position, the body returns
nil and records no driver call: the trace is the one it started from, for every
driver, so from the empty trace it stays empty. -/
theorem non_integer_argument_is_noop (drv : Driver) (self : mrb_value) (tr : Trace) :
    (∀ argv : List mrb_value, argv.length = 4 → (∃ a ∈ argv, mrb_fixnum_p a = false) →
        mrb_esp32_ledc_timer_config drv self argv tr = (.returned mrb_nil_value, tr))
    ∧ (∀ argv : List mrb_value, argv.length = 4 → (∃ a ∈ argv, mrb_fixnum_p a = false) →
        mrb_esp32_ledc_channel_config drv self argv tr = (.returned mrb_nil_value, tr))
    ∧ (∀ argv : List mrb_value, argv.length = 3 → (∃ a ∈ argv, mrb_fixnum_p a = false) →
        mrb_esp32_ledc_write drv self argv tr = (.returned mrb_nil_value, tr))
    ∧ (∀ argv : List mrb_value, argv.length = 1 → (∃ a ∈ argv, mrb_fixnum_p a = false) →
        mrb_esp32_ledc_detach drv self argv tr = (.returned mrb_nil_value, tr)) :=
  ⟨fun argv h1 h2 => timer_config_reject drv self argv tr h1 h2,
   fun argv h1 h2 => channel_config_reject drv self argv tr h1 h2,
   fun argv h1 h2 => write_reject drv self argv tr h1 h2,
   fun argv h1 h2 => detach_reject drv self argv tr h1 h2⟩

/-- C1 at `timer_config("x", 0, 13, 5000)`: nil is returned and the trace stays
empty. -/
theorem non_integer_argument_is_noop_witness :
    mrb_esp32_ledc_timer_config okDriver ledc_module
        [.string "x", .fixnum 0, .fixnum 13, .fixnum 5000] []
      = (.returned mrb_nil_value, []) :=
  (non_integer_argument_is_noop okDriver ledc_module []).1
    [.string "x", .fixnum 0, .fixnum 13, .fixnum 5000] rfl
    ⟨.string "x", by simp, rfl⟩

/-! ### C2 -/

/-- C2, as stated, fails for negative arguments: with a driver that accepts
every call, `timer_config(0, 0, 13, -1)` hands the driver a record whose
`freq_hz` is 4294967295, not -1, and `timer_config(-1, -2, -3, 5000)` hands it
speed_mode 4294967295, timer_num 4294967294 and duty_resolution 4294967293, not
-1, -2 and -3. -/
theorem timer_config_negative_freq_counterexample :
    mrb_esp32_ledc_timer_config okDriver ledc_module
        [.fixnum 0, .fixnum 0, .fixnum 13, .fixnum (-1)] []
      = (.returned ledc_module,
          [.ledc_timer_config ⟨0, 0, 13, 4294967295, .LEDC_AUTO_CLK⟩])
    ∧ (mrb_esp32_ledc_timer_config okDriver ledc_module
        [.fixnum 0, .fixnum 0, .fixnum 13, .fixnum (-1)] []).2
      ≠ [.ledc_timer_config ⟨0, 0, 13, -1, .LEDC_AUTO_CLK⟩]
    ∧ mrb_esp32_ledc_timer_config okDriver ledc_module
        [.fixnum (-1), .fixnum (-2), .fixnum (-3), .fixnum 5000] []
      = (.returned ledc_module,
          [.ledc_timer_config
            ⟨4294967295, 4294967294, 4294967293, 5000, .LEDC_AUTO_CLK⟩])
    ∧ (mrb_esp32_ledc_timer_config okDriver ledc_module
        [.fixnum (-1), .fixnum (-2), .fixnum (-3), .fixnum 5000] []).2
      ≠ [.ledc_timer_config ⟨-1, -2, -3, 5000, .LEDC_AUTO_CLK⟩] := by
  rw [timer_config_eval, timer_config_eval]
  simp [okDriver]

/-- C2, amended: for all integers group, timer, res, freq, when the driver
accepts the call, `timer_config` makes exactly one driver call,
`ledc_timer_config`, with speed_mode = group mod 2^32, timer_num = timer mod
2^32, duty_resolution = res mod 2^32, freq_hz = freq mod 2^32 and clk_cfg =
LEDC_AUTO_CLK, and returns self; when the four arguments lie in 0 .. 2^32 - 1
the record holds the arguments themselves; and the result is not nil unless
self is. -/
theorem timer_config_success (drv : Driver) (self : mrb_value)
    (group timer res freq : Int) (tr : Trace)
    (hok : drv tr (.ledc_timer_config
        ⟨group % 2 ^ 32, timer % 2 ^ 32, res % 2 ^ 32, freq % 2 ^ 32, .LEDC_AUTO_CLK⟩)
      = ESP_OK) :
    mrb_esp32_ledc_timer_config drv self
        [.fixnum group, .fixnum timer, .fixnum res, .fixnum freq] tr
      = (.returned self,
          tr ++ [.ledc_timer_config
            ⟨group % 2 ^ 32, timer % 2 ^ 32, res % 2 ^ 32, freq % 2 ^ 32,
              .LEDC_AUTO_CLK⟩])
    ∧ (in_uint32 group → in_uint32 timer → in_uint32 res → in_uint32 freq →
        mrb_esp32_ledc_timer_config drv self
            [.fixnum group, .fixnum timer, .fixnum res, .fixnum freq] tr
          = (.returned self,
              tr ++ [.ledc_timer_config ⟨group, timer, res, freq, .LEDC_AUTO_CLK⟩]))
    ∧ (self ≠ mrb_nil_value →
        (mrb_esp32_ledc_timer_config drv self
            [.fixnum group, .fixnum timer, .fixnum res, .fixnum freq] tr).1
          ≠ .returned mrb_nil_value) := by
  have h := timer_config_eval drv self group timer res freq tr
  rw [if_pos hok] at h
  refine ⟨h, ?_, ?_⟩
  · intro hg ht hr hf
    rw [h, to_uint32_of_in group hg, to_uint32_of_in timer ht, to_uint32_of_in res hr,
      to_uint32_of_in freq hf]
  · intro hs
    rw [h]
    intro hc
    exact hs (Outcome.returned.inj hc)

/-- C2 at `timer_config(1, 0, 13, 5000)` with a driver that accepts every call:
one `ledc_timer_config` call with {1, 0, 13, 5000, LEDC_AUTO_CLK}, and the
module itself is returned. -/
theorem timer_config_success_witness :
    mrb_esp32_ledc_timer_config okDriver ledc_module
        [.fixnum 1, .fixnum 0, .fixnum 13, .fixnum 5000] []
      = (.returned ledc_module,
          [] ++ [.ledc_timer_config ⟨1, 0, 13, 5000, .LEDC_AUTO_CLK⟩]) :=
  (timer_config_success okDriver ledc_module 1 0 13 5000 [] rfl).2.1
    (by decide) (by decide) (by decide) (by decide)

/-! ### C3 -/

/-- C3, as stated, fails for negative arguments: `channel_config(18, -1, -1, -1)`
hands the driver a record whose speed_mode, timer_sel and channel are
4294967295 each, not -1. -/
theorem channel_config_negative_counterexample :
    (mrb_esp32_ledc_channel_config okDriver ledc_module
        [.fixnum 18, .fixnum (-1), .fixnum (-1), .fixnum (-1)] []).2
      = [.ledc_channel_config
          ⟨18, 4294967295, 4294967295, 4294967295, .LEDC_INTR_DISABLE, 0, 0⟩]
    ∧ (mrb_esp32_ledc_channel_config okDriver ledc_module
        [.fixnum 18, .fixnum (-1), .fixnum (-1), .fixnum (-1)] []).2
      ≠ [.ledc_channel_config ⟨18, -1, -1, -1, .LEDC_INTR_DISABLE, 0, 0⟩] := by
  rw [channel_config_eval]
  simp [okDriver]

/-- C3, amended: for all integers pin, group, timer, ch and every driver, the
one record `channel_config` passes to `ledc_channel_config` has gpio_num = pin,
speed_mode = group mod 2^32, timer_sel = timer mod 2^32, channel = ch mod 2^32,
and intr_type = LEDC_INTR_DISABLE, duty = 0 and hpoint = 0 whatever the
arguments; when group, timer and ch lie in 0 .. 2^32 - 1 the record holds the
arguments themselves. -/
theorem channel_config_record (drv : Driver) (self : mrb_value)
    (pin group timer ch : Int) (tr : Trace) :
    (mrb_esp32_ledc_channel_config drv self
        [.fixnum pin, .fixnum group, .fixnum timer, .fixnum ch] tr).2
      = tr ++ [.ledc_channel_config
          { gpio_num := pin, speed_mode := group % 2 ^ 32, timer_sel := timer % 2 ^ 32,
            channel := ch % 2 ^ 32, intr_type := .LEDC_INTR_DISABLE, duty := 0,
            hpoint := 0 }]
    ∧ (in_uint32 group → in_uint32 timer → in_uint32 ch →
        (mrb_esp32_ledc_channel_config drv self
            [.fixnum pin, .fixnum group, .fixnum timer, .fixnum ch] tr).2
          = tr ++ [.ledc_channel_config
              { gpio_num := pin, speed_mode := group, timer_sel := timer, channel := ch,
                intr_type := .LEDC_INTR_DISABLE, duty := 0, hpoint := 0 }]) := by
  have h : (mrb_esp32_ledc_channel_config drv self
        [.fixnum pin, .fixnum group, .fixnum timer, .fixnum ch] tr).2
      = tr ++ [.ledc_channel_config
          ⟨pin, group % 2 ^ 32, timer % 2 ^ 32, ch % 2 ^ 32, .LEDC_INTR_DISABLE, 0, 0⟩] := by
    rw [channel_config_eval]
    split <;> rfl
  refine ⟨h, ?_⟩
  intro hg ht hc
  rw [h, to_uint32_of_in group hg, to_uint32_of_in timer ht, to_uint32_of_in ch hc]

/-- C3 at `channel_config(18, 1, 0, 0)`: the driver receives
{pin 18, mode 1, timer 0, channel 0, interrupts disabled, duty 0, hpoint 0}. -/
theorem channel_config_record_witness :
    (mrb_esp32_ledc_channel_config okDriver ledc_module
        [.fixnum 18, .fixnum 1, .fixnum 0, .fixnum 0] []).2
      = [] ++ [.ledc_channel_config ⟨18, 1, 0, 0, .LEDC_INTR_DISABLE, 0, 0⟩] :=
  (channel_config_record okDriver ledc_module 18 1 0 0 []).2
    (by decide) (by decide) (by decide)

/-! ### C4 -/

/-- C4, as stated, fails: when the driver rejects `ledc_set_duty`, `write(1, 0,
4096)` makes one driver call, not two, and the process is aborted; with a
driver that accepts every call, `write(1, 0, -1)` hands `ledc_set_duty` the duty
4294967295, not -1; and `write(-1, -1, 0)` hands both calls the group and the
channel 4294967295, not -1. -/
theorem write_two_calls_counterexample :
    mrb_esp32_ledc_write failSetDuty ledc_module
        [.fixnum 1, .fixnum 0, .fixnum 4096] []
      = (.aborted, [.ledc_set_duty 1 0 4096])
    ∧ (mrb_esp32_ledc_write failSetDuty ledc_module
        [.fixnum 1, .fixnum 0, .fixnum 4096] []).2
      ≠ [.ledc_set_duty 1 0 4096, .ledc_update_duty 1 0]
    ∧ mrb_esp32_ledc_write okDriver ledc_module
        [.fixnum 1, .fixnum 0, .fixnum (-1)] []
      = (.returned ledc_module, [.ledc_set_duty 1 0 4294967295, .ledc_update_duty 1 0])
    ∧ (mrb_esp32_ledc_write okDriver ledc_module
        [.fixnum 1, .fixnum 0, .fixnum (-1)] []).2
      ≠ [.ledc_set_duty 1 0 (-1), .ledc_update_duty 1 0]
    ∧ mrb_esp32_ledc_write okDriver ledc_module
        [.fixnum (-1), .fixnum (-1), .fixnum 0] []
      = (.returned ledc_module,
          [.ledc_set_duty 4294967295 4294967295 0,
           .ledc_update_duty 4294967295 4294967295])
    ∧ (mrb_esp32_ledc_write okDriver ledc_module
        [.fixnum (-1), .fixnum (-1), .fixnum 0] []).2
      ≠ [.ledc_set_duty (-1) (-1) 0, .ledc_update_duty (-1) (-1)] := by
  rw [write_eval, write_eval, write_eval]
  simp [okDriver, failSetDuty, ESP_OK]

/-- C4, amended: for all integers group, ch, duty, when the driver accepts
`ledc_set_duty`, `write` makes exactly two driver calls, in this order:
`ledc_set_duty(group mod 2^32, ch mod 2^32, duty mod 2^32)` and
`ledc_update_duty(group mod 2^32, ch mod 2^32)` (the arguments themselves when
they lie in 0 .. 2^32 - 1); when the driver rejects `ledc_set_duty`, that call
is the only one and the process is aborted; and when one of the three
arguments is not an integer no driver call is made. -/
theorem write_calls (drv : Driver) (self : mrb_value) (group ch duty : Int) (tr : Trace) :
    (drv tr (.ledc_set_duty (group % 2 ^ 32) (ch % 2 ^ 32) (duty % 2 ^ 32)) = ESP_OK →
        (mrb_esp32_ledc_write drv self [.fixnum group, .fixnum ch, .fixnum duty] tr).2
          = tr ++ [.ledc_set_duty (group % 2 ^ 32) (ch % 2 ^ 32) (duty % 2 ^ 32),
                   .ledc_update_duty (group % 2 ^ 32) (ch % 2 ^ 32)])
    ∧ (in_uint32 group → in_uint32 ch → in_uint32 duty →
        drv tr (.ledc_set_duty group ch duty) = ESP_OK →
        (mrb_esp32_ledc_write drv self [.fixnum group, .fixnum ch, .fixnum duty] tr).2
          = tr ++ [.ledc_set_duty group ch duty, .ledc_update_duty group ch])
    ∧ (drv tr (.ledc_set_duty (group % 2 ^ 32) (ch % 2 ^ 32) (duty % 2 ^ 32)) ≠ ESP_OK →
        mrb_esp32_ledc_write drv self [.fixnum group, .fixnum ch, .fixnum duty] tr
          = (.aborted,
              tr ++ [.ledc_set_duty (group % 2 ^ 32) (ch % 2 ^ 32) (duty % 2 ^ 32)]))
    ∧ (∀ argv : List mrb_value, argv.length = 3 → (∃ a ∈ argv, mrb_fixnum_p a = false) →
        (mrb_esp32_ledc_write drv self argv tr).2 = tr) := by
  have h := write_eval drv self group ch duty tr
  refine ⟨?_, ?_, ?_, ?_⟩
  · intro hok
    rw [h, if_pos hok]
    split <;> rfl
  · intro hg hc hd hok
    rw [h, to_uint32_of_in group hg, to_uint32_of_in ch hc, to_uint32_of_in duty hd,
      if_pos hok]
    split <;> rfl
  · intro hbad
    rw [h, if_neg hbad]
  · intro argv hlen hbad
    rw [write_reject drv self argv tr hlen hbad]

/-- C4 at `write(1, 0, 4096)` with a driver that accepts every call: the driver
receives `ledc_set_duty(1, 0, 4096)` and then `ledc_update_duty(1, 0)`. -/
theorem write_calls_witness :
    (mrb_esp32_ledc_write okDriver ledc_module
        [.fixnum 1, .fixnum 0, .fixnum 4096] []).2
      = [] ++ [.ledc_set_duty 1 0 4096, .ledc_update_duty 1 0] :=
  (write_calls okDriver ledc_module 1 0 4096 []).2.1
    (by decide) (by decide) (by decide) rfl

/-! ### What a body can add to the trace -/

theorem timer_config_trace (drv : Driver) (self : mrb_value) (argv : List mrb_value)
    (tr : Trace) :
    (mrb_esp32_ledc_timer_config drv self argv tr).2 = tr
      ∨ ∃ cfg, (mrb_esp32_ledc_timer_config drv self argv tr).2
          = tr ++ [.ledc_timer_config cfg] := by
  by_cases hlen : argv.length = 4
  · by_cases hbad : ∃ a ∈ argv, mrb_fixnum_p a = false
    · left
      rw [timer_config_reject drv self argv tr hlen hbad]
    · right
      match argv, hlen with
      | [a, b, c, d], _ =>
        simp only [List.mem_cons, List.mem_singleton, List.not_mem_nil, or_false,
          not_exists, not_and, Bool.not_eq_false] at hbad
        obtain ⟨i, rfl⟩ := fixnum_of_p a (hbad a (Or.inl rfl))
        obtain ⟨j, rfl⟩ := fixnum_of_p b (hbad b (Or.inr (Or.inl rfl)))
        obtain ⟨k, rfl⟩ := fixnum_of_p c (hbad c (Or.inr (Or.inr (Or.inl rfl))))
        obtain ⟨l, rfl⟩ := fixnum_of_p d (hbad d (Or.inr (Or.inr (Or.inr rfl))))
        rw [timer_config_eval]
        split <;> exact ⟨_, rfl⟩
  · left
    simp [mrb_esp32_ledc_timer_config, mrb_get_args, hlen]

theorem channel_config_trace (drv : Driver) (self : mrb_value) (argv : List mrb_value)
    (tr : Trace) :
    (mrb_esp32_ledc_channel_config drv self argv tr).2 = tr
      ∨ ∃ cfg, (mrb_esp32_ledc_channel_config drv self argv tr).2
          = tr ++ [.ledc_channel_config cfg] := by
  by_cases hlen : argv.length = 4
  · by_cases hbad : ∃ a ∈ argv, mrb_fixnum_p a = false
    · left
      rw [channel_config_reject drv self argv tr hlen hbad]
    · right
      match argv, hlen with
      | [a, b, c, d], _ =>
        simp only [List.mem_cons, List.mem_singleton, List.not_mem_nil, or_false,
          not_exists, not_and, Bool.not_eq_false] at hbad
        obtain ⟨i, rfl⟩ := fixnum_of_p a (hbad a (Or.inl rfl))
        obtain ⟨j, rfl⟩ := fixnum_of_p b (hbad b (Or.inr (Or.inl rfl)))
        obtain ⟨k, rfl⟩ := fixnum_of_p c (hbad c (Or.inr (Or.inr (Or.inl rfl))))
        obtain ⟨l, rfl⟩ := fixnum_of_p d (hbad d (Or.inr (Or.inr (Or.inr rfl))))
        rw [channel_config_eval]
        split <;> exact ⟨_, rfl⟩
  · left
    simp [mrb_esp32_ledc_channel_config, mrb_get_args, hlen]

theorem write_trace (drv : Driver) (self : mrb_value) (argv : List mrb_value)
    (tr : Trace) :
    (mrb_esp32_ledc_write drv self argv tr).2 = tr
      ∨ (∃ m c d, (mrb_esp32_ledc_write drv self argv tr).2 = tr ++ [.ledc_set_duty m c d])
      ∨ ∃ m c d, (mrb_esp32_ledc_write drv self argv tr).2
          = tr ++ [.ledc_set_duty m c d, .ledc_update_duty m c] := by
  by_cases hlen : argv.length = 3
  · by_cases hbad : ∃ a ∈ argv, mrb_fixnum_p a = false
    · left
      rw [write_reject drv self argv tr hlen hbad]
    · right
      match argv, hlen with
      | [a, b, c], _ =>
        simp only [List.mem_cons, List.mem_singleton, List.not_mem_nil, or_false,
          not_exists, not_and, Bool.not_eq_false] at hbad
        obtain ⟨i, rfl⟩ := fixnum_of_p a (hbad a (Or.inl rfl))
        obtain ⟨j, rfl⟩ := fixnum_of_p b (hbad b (Or.inr (Or.inl rfl)))
        obtain ⟨k, rfl⟩ := fixnum_of_p c (hbad c (Or.inr (Or.inr rfl)))
        rw [write_eval]
        split
        · right
          split <;> exact ⟨_, _, _, rfl⟩
        · left
          exact ⟨_, _, _, rfl⟩
  · left
    simp [mrb_esp32_ledc_write, mrb_get_args, hlen]

/-- The method table after the gem initialiser ran on a fresh interpreter. -/
theorem gem_init_ledc_eq (sym : String → Int) :
    (mrb_mruby_esp32_ledc_gem_init sym mrb_open).ledc =
      [⟨"timer_config", .mrb_esp32_ledc_timer_config, 4⟩,
       ⟨"channel_config", .mrb_esp32_ledc_channel_config, 4⟩,
       ⟨"write", .mrb_esp32_ledc_write, 3⟩,
       ⟨"detach", .mrb_esp32_ledc_write, 1⟩] := by
  simp [mrb_mruby_esp32_ledc_gem_init, mrb_define_module_function, define_const,
    mrb_define_const, mrb_open, MRB_ARGS_REQ]

/-- A call through the public interface runs one of the three bound bodies on
the module, or finds no method and leaves the trace alone. -/
theorem module_call_cases (sym : String → Int) (drv : Driver) (name : String)
    (argv : List mrb_value) (tr : Trace) :
    module_call (mrb_mruby_esp32_ledc_gem_init sym mrb_open) drv name argv tr
        = mrb_esp32_ledc_timer_config drv ledc_module argv tr
      ∨ module_call (mrb_mruby_esp32_ledc_gem_init sym mrb_open) drv name argv tr
          = mrb_esp32_ledc_channel_config drv ledc_module argv tr
      ∨ module_call (mrb_mruby_esp32_ledc_gem_init sym mrb_open) drv name argv tr
          = mrb_esp32_ledc_write drv ledc_module argv tr
      ∨ module_call (mrb_mruby_esp32_ledc_gem_init sym mrb_open) drv name argv tr
          = (.raised .NoMethodError, tr) := by
  unfold module_call
  rw [gem_init_ledc_eq]
  simp only [List.find?]
  split <;> rename_i h
  · split at h
    · cases h; left; rfl
    · split at h
      · cases h; right; left; rfl
      · split at h
        · cases h; right; right; left; rfl
        · split at h
          · cases h; right; right; left; rfl
          · cases h
  · right; right; right; rfl

/-! ### C5 -/

/-- C5, evaluated on the code: after the gem initialiser, the public call
`ESP32::LEDC.detach(18)` runs the duty-write body, whose argument fetch rejects
the single argument, so `ArgumentError` is raised, no driver call is made and
self is not returned; while the body `mrb_esp32_ledc_detach`, which no public
name reaches, makes the one call `gpio_iomux_out(18, PIN_FUNC_GPIO, false)` and
returns self. -/
theorem public_detach_misses_iomux (sym : String → Int) :
    module_call (mrb_mruby_esp32_ledc_gem_init sym mrb_open) okDriver "detach"
        [.fixnum 18] []
      = (.raised .ArgumentError, [])
    ∧ mrb_esp32_ledc_detach okDriver ledc_module [.fixnum 18] []
      = (.returned ledc_module, [.gpio_iomux_out 18 PIN_FUNC_GPIO false]) := by
  constructor
  · unfold module_call
    rw [gem_init_ledc_eq]
    decide
  · rw [detach_eval]
    simp

/-! ### C6 -/

/-- C6: the method table built by the gem initialiser binds `timer_config`,
`channel_config` and `write` to their own bodies with declared arities 4, 4 and
3, and binds `detach`, declared with one required argument, to the duty-write
body; no name is bound to the detach body; and a call through the public
interface, whatever the name, the arguments, the driver and the history, adds no
`gpio_iomux_out` to the trace. -/
theorem registration_table (sym : String → Int) :
    (mrb_mruby_esp32_ledc_gem_init sym mrb_open).ledc =
      [ { name := "timer_config", func := .mrb_esp32_ledc_timer_config,
          aspec := MRB_ARGS_REQ 4 },
        { name := "channel_config", func := .mrb_esp32_ledc_channel_config,
          aspec := MRB_ARGS_REQ 4 },
        { name := "write", func := .mrb_esp32_ledc_write, aspec := MRB_ARGS_REQ 3 },
        { name := "detach", func := .mrb_esp32_ledc_write, aspec := MRB_ARGS_REQ 1 } ]
    ∧ (∀ m ∈ (mrb_mruby_esp32_ledc_gem_init sym mrb_open).ledc,
        m.func ≠ .mrb_esp32_ledc_detach)
    ∧ (∀ (drv : Driver) (name : String) (argv : List mrb_value) (tr : Trace),
        ∃ new : Trace,
          (module_call (mrb_mruby_esp32_ledc_gem_init sym mrb_open) drv name argv tr).2
            = tr ++ new
          ∧ ∀ c ∈ new, c.is_gpio_iomux_out = false) := by
  refine ⟨gem_init_ledc_eq sym, ?_, ?_⟩
  · rw [gem_init_ledc_eq]
    decide
  intro drv name argv tr
  rcases module_call_cases sym drv name argv tr with h | h | h | h <;> rw [h]
  · rcases timer_config_trace drv ledc_module argv tr with h1 | ⟨cfg, h1⟩ <;> rw [h1]
    · exact ⟨[], by simp, by simp⟩
    · exact ⟨_, rfl, by simp [DriverCall.is_gpio_iomux_out]⟩
  · rcases channel_config_trace drv ledc_module argv tr with h1 | ⟨cfg, h1⟩ <;> rw [h1]
    · exact ⟨[], by simp, by simp⟩
    · exact ⟨_, rfl, by simp [DriverCall.is_gpio_iomux_out]⟩
  · rcases write_trace drv ledc_module argv tr with h1 | ⟨m, c, d, h1⟩ | ⟨m, c, d, h1⟩ <;>
      rw [h1]
    · exact ⟨[], by simp, by simp⟩
    · exact ⟨_, rfl, by simp [DriverCall.is_gpio_iomux_out]⟩
    · exact ⟨_, rfl, by simp [DriverCall.is_gpio_iomux_out]⟩
  · exact ⟨[], by simp, by simp⟩

/-! ### C7 -/

/-- C7: for all integer arguments, `timer_config` aborts when the driver rejects
its `ledc_timer_config` call, `channel_config` aborts when it rejects its
`ledc_channel_config` call, and `write` aborts when it rejects its
`ledc_set_duty` call (and then `ledc_update_duty` is not called: the rejected
call is the last of the trace) or its `ledc_update_duty` call; an abort is not
the return of any value, self and nil included; and each of the three returns
self only if the driver accepted every call made.  The calls are the ones the
bodies make: unsigned 32-bit arguments hold the integer modulo 2^32. -/
theorem driver_failure_aborts (drv : Driver) (self : mrb_value) (tr : Trace) :
    (∀ group timer res freq : Int,
        drv tr (.ledc_timer_config
            ⟨group % 2 ^ 32, timer % 2 ^ 32, res % 2 ^ 32, freq % 2 ^ 32, .LEDC_AUTO_CLK⟩)
          ≠ ESP_OK →
        mrb_esp32_ledc_timer_config drv self
            [.fixnum group, .fixnum timer, .fixnum res, .fixnum freq] tr
          = (.aborted,
              tr ++ [.ledc_timer_config
                ⟨group % 2 ^ 32, timer % 2 ^ 32, res % 2 ^ 32, freq % 2 ^ 32,
                  .LEDC_AUTO_CLK⟩]))
    ∧ (∀ pin group timer ch : Int,
        drv tr (.ledc_channel_config
            ⟨pin, group % 2 ^ 32, timer % 2 ^ 32, ch % 2 ^ 32, .LEDC_INTR_DISABLE, 0, 0⟩)
          ≠ ESP_OK →
        mrb_esp32_ledc_channel_config drv self
            [.fixnum pin, .fixnum group, .fixnum timer, .fixnum ch] tr
          = (.aborted,
              tr ++ [.ledc_channel_config
                ⟨pin, group % 2 ^ 32, timer % 2 ^ 32, ch % 2 ^ 32, .LEDC_INTR_DISABLE, 0,
                  0⟩]))
    ∧ (∀ group ch duty : Int,
        drv tr (.ledc_set_duty (group % 2 ^ 32) (ch % 2 ^ 32) (duty % 2 ^ 32)) ≠ ESP_OK →
        mrb_esp32_ledc_write drv self [.fixnum group, .fixnum ch, .fixnum duty] tr
          = (.aborted,
              tr ++ [.ledc_set_duty (group % 2 ^ 32) (ch % 2 ^ 32) (duty % 2 ^ 32)]))
    ∧ (∀ group ch duty : Int,
        drv tr (.ledc_set_duty (group % 2 ^ 32) (ch % 2 ^ 32) (duty % 2 ^ 32)) = ESP_OK →
        drv (tr ++ [.ledc_set_duty (group % 2 ^ 32) (ch % 2 ^ 32) (duty % 2 ^ 32)])
            (.ledc_update_duty (group % 2 ^ 32) (ch % 2 ^ 32))
          ≠ ESP_OK →
        mrb_esp32_ledc_write drv self [.fixnum group, .fixnum ch, .fixnum duty] tr
          = (.aborted,
              tr ++ [.ledc_set_duty (group % 2 ^ 32) (ch % 2 ^ 32) (duty % 2 ^ 32),
                     .ledc_update_duty (group % 2 ^ 32) (ch % 2 ^ 32)]))
    ∧ (Outcome.aborted ≠ .returned self ∧ Outcome.aborted ≠ .returned mrb_nil_value)
    ∧ (∀ group timer res freq : Int,
        (mrb_esp32_ledc_timer_config drv self
            [.fixnum group, .fixnum timer, .fixnum res, .fixnum freq] tr).1
          = .returned self →
        drv tr (.ledc_timer_config
            ⟨group % 2 ^ 32, timer % 2 ^ 32, res % 2 ^ 32, freq % 2 ^ 32, .LEDC_AUTO_CLK⟩)
          = ESP_OK)
    ∧ (∀ pin group timer ch : Int,
        (mrb_esp32_ledc_channel_config drv self
            [.fixnum pin, .fixnum group, .fixnum timer, .fixnum ch] tr).1
          = .returned self →
        drv tr (.ledc_channel_config
            ⟨pin, group % 2 ^ 32, timer % 2 ^ 32, ch % 2 ^ 32, .LEDC_INTR_DISABLE, 0, 0⟩)
          = ESP_OK)
    ∧ (∀ group ch duty : Int,
        (mrb_esp32_ledc_write drv self [.fixnum group, .fixnum ch, .fixnum duty] tr).1
          = .returned self →
        drv tr (.ledc_set_duty (group % 2 ^ 32) (ch % 2 ^ 32) (duty % 2 ^ 32)) = ESP_OK
          ∧ drv (tr ++ [.ledc_set_duty (group % 2 ^ 32) (ch % 2 ^ 32) (duty % 2 ^ 32)])
              (.ledc_update_duty (group % 2 ^ 32) (ch % 2 ^ 32)) = ESP_OK) := by
  refine ⟨?_, ?_, ?_, ?_, ⟨by simp, by simp⟩, ?_, ?_, ?_⟩
  · intro group timer res freq h
    rw [timer_config_eval, if_neg h]
  · intro pin group timer ch h
    rw [channel_config_eval, if_neg h]
  · intro group ch duty h
    rw [write_eval, if_neg h]
  · intro group ch duty h1 h2
    rw [write_eval, if_pos h1, if_neg h2]
  · intro group timer res freq h
    rw [timer_config_eval] at h
    by_contra hc
    rw [if_neg hc] at h
    simp at h
  · intro pin group timer ch h
    rw [channel_config_eval] at h
    by_contra hc
    rw [if_neg hc] at h
    simp at h
  · intro group ch duty h
    rw [write_eval] at h
    by_cases h1 : drv tr (.ledc_set_duty (group % 2 ^ 32) (ch % 2 ^ 32) (duty % 2 ^ 32))
        = ESP_OK
    · rw [if_pos h1] at h
      refine ⟨h1, ?_⟩
      by_contra hc
      rw [if_neg hc] at h
      simp at h
    · rw [if_neg h1] at h
      simp at h

/-- C7 at a driver that rejects every call: `timer_config(1, 0, 13, 5000)` and
`write(1, 0, 4096)` abort, the latter after `ledc_set_duty` alone; so does
`timer_config(-1, 0, 13, 5000)`, after the call with speed_mode 4294967295. -/
theorem driver_failure_aborts_witness :
    mrb_esp32_ledc_timer_config failDriver ledc_module
        [.fixnum 1, .fixnum 0, .fixnum 13, .fixnum 5000] []
      = (.aborted,
          [] ++ [.ledc_timer_config
            ⟨1 % 2 ^ 32, 0 % 2 ^ 32, 13 % 2 ^ 32, 5000 % 2 ^ 32, .LEDC_AUTO_CLK⟩])
    ∧ mrb_esp32_ledc_write failDriver ledc_module
        [.fixnum 1, .fixnum 0, .fixnum 4096] []
      = (.aborted, [] ++ [.ledc_set_duty (1 % 2 ^ 32) (0 % 2 ^ 32) (4096 % 2 ^ 32)])
    ∧ mrb_esp32_ledc_timer_config failDriver ledc_module
        [.fixnum (-1), .fixnum 0, .fixnum 13, .fixnum 5000] []
      = (.aborted,
          [] ++ [.ledc_timer_config
            ⟨(-1) % 2 ^ 32, 0 % 2 ^ 32, 13 % 2 ^ 32, 5000 % 2 ^ 32, .LEDC_AUTO_CLK⟩])
    ∧ (-1 : Int) % 2 ^ 32 = 4294967295 :=
  ⟨(driver_failure_aborts failDriver ledc_module []).1 1 0 13 5000 (by decide),
   (driver_failure_aborts failDriver ledc_module []).2.2.1 1 0 4096 (by decide),
   (driver_failure_aborts failDriver ledc_module []).1 (-1) 0 13 5000 (by decide),
   by decide⟩

/-! ### C8 -/

/-- On a fresh interpreter the gem initialiser defines each of its symbols
once, in the order of the source. -/
theorem gem_init_constants_eq (sym : String → Int) :
    (mrb_mruby_esp32_ledc_gem_init sym mrb_open).constants
      = listed_constant_names.map (fun s => (s, mrb_fixnum_value (sym s))) := by
  have hl : listed_constant_names =
      [ "LEDC_HIGH_SPEED_MODE", "LEDC_LOW_SPEED_MODE",
        "LEDC_CHANNEL_0", "LEDC_CHANNEL_1", "LEDC_CHANNEL_2", "LEDC_CHANNEL_3",
        "LEDC_CHANNEL_4", "LEDC_CHANNEL_5", "LEDC_CHANNEL_6", "LEDC_CHANNEL_7",
        "LEDC_CHANNEL_MAX",
        "LEDC_TIMER_0", "LEDC_TIMER_1", "LEDC_TIMER_2", "LEDC_TIMER_3", "LEDC_TIMER_MAX",
        "LEDC_TIMER_1_BIT", "LEDC_TIMER_2_BIT", "LEDC_TIMER_3_BIT", "LEDC_TIMER_4_BIT",
        "LEDC_TIMER_5_BIT", "LEDC_TIMER_6_BIT", "LEDC_TIMER_7_BIT", "LEDC_TIMER_8_BIT",
        "LEDC_TIMER_9_BIT", "LEDC_TIMER_10_BIT", "LEDC_TIMER_11_BIT", "LEDC_TIMER_12_BIT",
        "LEDC_TIMER_13_BIT", "LEDC_TIMER_14_BIT", "LEDC_TIMER_15_BIT", "LEDC_TIMER_16_BIT",
        "LEDC_TIMER_17_BIT", "LEDC_TIMER_18_BIT", "LEDC_TIMER_19_BIT", "LEDC_TIMER_20_BIT",
        "LEDC_TIMER_BIT_MAX" ] := by decide
  rw [hl]
  simp [mrb_mruby_esp32_ledc_gem_init, mrb_define_module_function, define_const,
    mrb_define_const, mrb_open]

/-- C8: whatever integer values the driver header gives its symbols, the
constants table the gem initialiser builds has exactly 37 entries, with
pairwise distinct names; the names are the 2 speed-mode groups,
LEDC_CHANNEL_0..7 and LEDC_CHANNEL_MAX, LEDC_TIMER_0..3 and LEDC_TIMER_MAX,
LEDC_TIMER_1_BIT..LEDC_TIMER_20_BIT and LEDC_TIMER_BIT_MAX; and every entry maps
its name to the integer value of the driver symbol of that name. -/
theorem constants_table (sym : String → Int) :
    (mrb_mruby_esp32_ledc_gem_init sym mrb_open).constants.length = 37
    ∧ ((mrb_mruby_esp32_ledc_gem_init sym mrb_open).constants.map Prod.fst).Nodup
    ∧ (mrb_mruby_esp32_ledc_gem_init sym mrb_open).constants.map Prod.fst
        = listed_constant_names
    ∧ ∀ e ∈ (mrb_mruby_esp32_ledc_gem_init sym mrb_open).constants,
        e.2 = mrb_fixnum_value (sym e.1) := by
  have hnames : (mrb_mruby_esp32_ledc_gem_init sym mrb_open).constants.map Prod.fst
      = listed_constant_names := by
    rw [gem_init_constants_eq, List.map_map]
    exact List.map_id _
  refine ⟨?_, ?_, hnames, ?_⟩
  · rw [gem_init_constants_eq, List.length_map]
    decide
  · rw [hnames]
    decide
  · intro e he
    rw [gem_init_constants_eq, List.mem_map] at he
    obtain ⟨s, _, rfl⟩ := he
    rfl

/-! ### C9 -/

/-- C9: the record `timer_config` passes to `ledc_timer_config` is the same for
every driver and every history of earlier calls, a function of the four
arguments alone (each taken modulo 2^32, as the unsigned fields hold it); so
two calls in succession with the same arguments pass the same record twice
(the second call takes place when the first returned). -/
theorem timer_config_twice (drv : Driver) (self : mrb_value)
    (group timer res freq : Int) (tr : Trace) :
    (mrb_esp32_ledc_timer_config drv self
        [.fixnum group, .fixnum timer, .fixnum res, .fixnum freq] tr).2
      = tr ++ [.ledc_timer_config
          ⟨group % 2 ^ 32, timer % 2 ^ 32, res % 2 ^ 32, freq % 2 ^ 32, .LEDC_AUTO_CLK⟩]
    ∧ (drv tr (.ledc_timer_config
          ⟨group % 2 ^ 32, timer % 2 ^ 32, res % 2 ^ 32, freq % 2 ^ 32, .LEDC_AUTO_CLK⟩)
          = ESP_OK →
        (andThen
            (mrb_esp32_ledc_timer_config drv self
              [.fixnum group, .fixnum timer, .fixnum res, .fixnum freq] tr)
            (mrb_esp32_ledc_timer_config drv self
              [.fixnum group, .fixnum timer, .fixnum res, .fixnum freq])).2
          = tr ++ [.ledc_timer_config
                    ⟨group % 2 ^ 32, timer % 2 ^ 32, res % 2 ^ 32, freq % 2 ^ 32,
                      .LEDC_AUTO_CLK⟩,
                   .ledc_timer_config
                    ⟨group % 2 ^ 32, timer % 2 ^ 32, res % 2 ^ 32, freq % 2 ^ 32,
                      .LEDC_AUTO_CLK⟩]) := by
  constructor
  · rw [timer_config_eval]
    split <;> rfl
  · intro hok
    rw [timer_config_eval drv self group timer res freq tr, if_pos hok]
    simp only [andThen]
    rw [timer_config_eval]
    split <;> simp

/-- C9 at `timer_config(1, 0, 13, 5000)` called twice with a driver that accepts
every call: the trace is the record {1, 0, 13, 5000, LEDC_AUTO_CLK} twice. -/
theorem timer_config_twice_witness :
    (andThen
        (mrb_esp32_ledc_timer_config okDriver ledc_module
          [.fixnum 1, .fixnum 0, .fixnum 13, .fixnum 5000] [])
        (mrb_esp32_ledc_timer_config okDriver ledc_module
          [.fixnum 1, .fixnum 0, .fixnum 13, .fixnum 5000])).2
      = [.ledc_timer_config ⟨1, 0, 13, 5000, .LEDC_AUTO_CLK⟩,
         .ledc_timer_config ⟨1, 0, 13, 5000, .LEDC_AUTO_CLK⟩] := by
  have h := (timer_config_twice okDriver ledc_module 1 0 13 5000 []).2 rfl
  simpa using h

/-! ### C10 -/

theorem timer_config_called_iff (drv : Driver) (self : mrb_value) (tr : Trace)
    (argv : List mrb_value) (hlen : argv.length = 4) :
    (mrb_esp32_ledc_timer_config drv self argv tr).2 ≠ tr
      ↔ ∀ a ∈ argv, mrb_fixnum_p a = true := by
  constructor
  · intro h a ha
    by_contra hp
    exact h (by rw [timer_config_reject drv self argv tr hlen ⟨a, ha, by simpa using hp⟩])
  · intro hall
    match argv, hlen with
    | [a, b, c, d], _ =>
      obtain ⟨i, rfl⟩ := fixnum_of_p a (hall a (by simp))
      obtain ⟨j, rfl⟩ := fixnum_of_p b (hall b (by simp))
      obtain ⟨k, rfl⟩ := fixnum_of_p c (hall c (by simp))
      obtain ⟨l, rfl⟩ := fixnum_of_p d (hall d (by simp))
      rw [timer_config_eval]
      split <;> simp

theorem channel_config_called_iff (drv : Driver) (self : mrb_value) (tr : Trace)
    (argv : List mrb_value) (hlen : argv.length = 4) :
    (mrb_esp32_ledc_channel_config drv self argv tr).2 ≠ tr
      ↔ ∀ a ∈ argv, mrb_fixnum_p a = true := by
  constructor
  · intro h a ha
    by_contra hp
    exact h (by rw [channel_config_reject drv self argv tr hlen ⟨a, ha, by simpa using hp⟩])
  · intro hall
    match argv, hlen with
    | [a, b, c, d], _ =>
      obtain ⟨i, rfl⟩ := fixnum_of_p a (hall a (by simp))
      obtain ⟨j, rfl⟩ := fixnum_of_p b (hall b (by simp))
      obtain ⟨k, rfl⟩ := fixnum_of_p c (hall c (by simp))
      obtain ⟨l, rfl⟩ := fixnum_of_p d (hall d (by simp))
      rw [channel_config_eval]
      split <;> simp

theorem write_called_iff (drv : Driver) (self : mrb_value) (tr : Trace)
    (argv : List mrb_value) (hlen : argv.length = 3) :
    (mrb_esp32_ledc_write drv self argv tr).2 ≠ tr
      ↔ ∀ a ∈ argv, mrb_fixnum_p a = true := by
  constructor
  · intro h a ha
    by_contra hp
    exact h (by rw [write_reject drv self argv tr hlen ⟨a, ha, by simpa using hp⟩])
  · intro hall
    match argv, hlen with
    | [a, b, c], _ =>
      obtain ⟨i, rfl⟩ := fixnum_of_p a (hall a (by simp))
      obtain ⟨j, rfl⟩ := fixnum_of_p b (hall b (by simp))
      obtain ⟨k, rfl⟩ := fixnum_of_p c (hall c (by simp))
      rw [write_eval]
      split
      · split <;> simp
      · simp

theorem detach_called_iff (drv : Driver) (self : mrb_value) (tr : Trace)
    (argv : List mrb_value) (hlen : argv.length = 1) :
    (mrb_esp32_ledc_detach drv self argv tr).2 ≠ tr
      ↔ ∀ a ∈ argv, mrb_fixnum_p a = true := by
  constructor
  · intro h a ha
    by_contra hp
    exact h (by rw [detach_reject drv self argv tr hlen ⟨a, ha, by simpa using hp⟩])
  · intro hall
    match argv, hlen with
    | [a], _ =>
      obtain ⟨i, rfl⟩ := fixnum_of_p a (hall a (by simp))
      rw [detach_eval]
      simp

/-- C10, as stated, fails: `timer_config(1, 0, 13)` has integer arguments only,
yet the argument fetch raises `ArgumentError` and the driver is not called; and
values do not all reach the driver as they are: with a driver that accepts every
call, `timer_config(1, -1, -1, 5000)` passes timer index and resolution
4294967295, and the detach body passes pin 256 as 0. -/
theorem integer_check_arity_counterexample :
    (∀ a ∈ [mrb_value.fixnum 1, mrb_value.fixnum 0, mrb_value.fixnum 13],
        mrb_fixnum_p a = true)
    ∧ mrb_esp32_ledc_timer_config okDriver ledc_module
        [.fixnum 1, .fixnum 0, .fixnum 13] []
      = (.raised .ArgumentError, [])
    ∧ (mrb_esp32_ledc_timer_config okDriver ledc_module
        [.fixnum 1, .fixnum (-1), .fixnum (-1), .fixnum 5000] []).2
      = [.ledc_timer_config ⟨1, 4294967295, 4294967295, 5000, .LEDC_AUTO_CLK⟩]
    ∧ (mrb_esp32_ledc_detach okDriver ledc_module [.fixnum 256] []).2
      = [.gpio_iomux_out 0 PIN_FUNC_GPIO false] := by
  refine ⟨by decide, ?_, ?_, ?_⟩
  · exact timer_config_arity okDriver ledc_module _ [] (by decide)
  · rw [timer_config_eval]
    simp [okDriver]
  · rw [detach_eval]
    simp

/-- C10, amended: for each of the four bodies and every argument list of its
arity, the driver is called if and only if every argument is an integer; with
any other number of arguments `ArgumentError` is raised and the driver is not
called; and no range is checked: for all integers, whatever their size or sign,
the driver is called, the `channel_config` pin reaches it as it is, the group,
timer index, resolution, channel, frequency and duty reach it as their value
modulo 2^32 (a number from 0 to 2^32 - 1: the value itself when it lies there,
the value plus 2^32 for a negative one of at least -2^32), and the detach pin
as its value modulo 2^8. -/
theorem integer_check_is_only_validation (drv : Driver) (self : mrb_value) (tr : Trace) :
    (∀ argv : List mrb_value, argv.length = 4 →
        ((mrb_esp32_ledc_timer_config drv self argv tr).2 ≠ tr
          ↔ ∀ a ∈ argv, mrb_fixnum_p a = true))
    ∧ (∀ argv : List mrb_value, argv.length = 4 →
        ((mrb_esp32_ledc_channel_config drv self argv tr).2 ≠ tr
          ↔ ∀ a ∈ argv, mrb_fixnum_p a = true))
    ∧ (∀ argv : List mrb_value, argv.length = 3 →
        ((mrb_esp32_ledc_write drv self argv tr).2 ≠ tr
          ↔ ∀ a ∈ argv, mrb_fixnum_p a = true))
    ∧ (∀ argv : List mrb_value, argv.length = 1 →
        ((mrb_esp32_ledc_detach drv self argv tr).2 ≠ tr
          ↔ ∀ a ∈ argv, mrb_fixnum_p a = true))
    ∧ (∀ argv : List mrb_value, argv.length ≠ 4 →
        mrb_esp32_ledc_timer_config drv self argv tr = (.raised .ArgumentError, tr))
    ∧ (∀ argv : List mrb_value, argv.length ≠ 4 →
        mrb_esp32_ledc_channel_config drv self argv tr = (.raised .ArgumentError, tr))
    ∧ (∀ argv : List mrb_value, argv.length ≠ 3 →
        mrb_esp32_ledc_write drv self argv tr = (.raised .ArgumentError, tr))
    ∧ (∀ argv : List mrb_value, argv.length ≠ 1 →
        mrb_esp32_ledc_detach drv self argv tr = (.raised .ArgumentError, tr))
    ∧ (∀ group timer res freq : Int,
        (mrb_esp32_ledc_timer_config drv self
            [.fixnum group, .fixnum timer, .fixnum res, .fixnum freq] tr).2
          = tr ++ [.ledc_timer_config
              ⟨group % 2 ^ 32, timer % 2 ^ 32, res % 2 ^ 32, freq % 2 ^ 32,
                .LEDC_AUTO_CLK⟩])
    ∧ (∀ pin group timer ch : Int,
        (mrb_esp32_ledc_channel_config drv self
            [.fixnum pin, .fixnum group, .fixnum timer, .fixnum ch] tr).2
          = tr ++ [.ledc_channel_config
              ⟨pin, group % 2 ^ 32, timer % 2 ^ 32, ch % 2 ^ 32, .LEDC_INTR_DISABLE, 0,
                0⟩])
    ∧ (∀ group ch duty : Int, ∃ rest : Trace,
        (mrb_esp32_ledc_write drv self [.fixnum group, .fixnum ch, .fixnum duty] tr).2
          = tr ++ .ledc_set_duty (group % 2 ^ 32) (ch % 2 ^ 32) (duty % 2 ^ 32) :: rest)
    ∧ (∀ pin : Int,
        (mrb_esp32_ledc_detach drv self [.fixnum pin] tr).2
          = tr ++ [.gpio_iomux_out (pin % 2 ^ 8) PIN_FUNC_GPIO false])
    ∧ (∀ x : Int, to_uint32 x = x % 2 ^ 32 ∧ 0 ≤ x % 2 ^ 32 ∧ x % 2 ^ 32 < 2 ^ 32
        ∧ (in_uint32 x → x % 2 ^ 32 = x)
        ∧ (x < 0 → -2 ^ 32 ≤ x → x % 2 ^ 32 = x + 2 ^ 32))
    ∧ (∀ x : Int, to_uint8 x = x % 2 ^ 8 ∧ 0 ≤ x % 2 ^ 8 ∧ x % 2 ^ 8 < 2 ^ 8) := by
  refine ⟨fun argv h => timer_config_called_iff drv self tr argv h,
    fun argv h => channel_config_called_iff drv self tr argv h,
    fun argv h => write_called_iff drv self tr argv h,
    fun argv h => detach_called_iff drv self tr argv h,
    fun argv h => timer_config_arity drv self argv tr h,
    fun argv h => channel_config_arity drv self argv tr h,
    fun argv h => write_arity drv self argv tr h,
    fun argv h => detach_arity drv self argv tr h, ?_, ?_, ?_, ?_, ?_, ?_⟩
  · intro group timer res freq
    rw [timer_config_eval]
    split <;> rfl
  · intro pin group timer ch
    rw [channel_config_eval]
    split <;> rfl
  · intro group ch duty
    rw [write_eval]
    split
    · split <;> exact ⟨[.ledc_update_duty (group % 2 ^ 32) (ch % 2 ^ 32)], rfl⟩
    · exact ⟨[], rfl⟩
  · intro pin
    rw [detach_eval]
  · intro x
    refine ⟨rfl, Int.emod_nonneg x (by norm_num), Int.emod_lt_of_pos x (by norm_num),
      to_uint32_of_in x, ?_⟩
    intro h1 h2
    omega
  · intro x
    exact ⟨rfl, Int.emod_nonneg x (by norm_num), Int.emod_lt_of_pos x (by norm_num)⟩

/-- C10 at values outside every range of the data model, with a driver that
accepts every call: `timer_config(1, 7, 99, -1)` passes timer 7, resolution 99
and frequency 4294967295, and `write(1, 12, -5)` passes channel 12 and duty
4294967291; `timer_config(1, 7, 99, nil)` calls nothing, and neither does
`timer_config(1, 7, 99)`. -/
theorem integer_check_is_only_validation_witness :
    (mrb_esp32_ledc_timer_config okDriver ledc_module
        [.fixnum 1, .fixnum 7, .fixnum 99, .fixnum (-1)] []).2
      = [] ++ [.ledc_timer_config
          ⟨1 % 2 ^ 32, 7 % 2 ^ 32, 99 % 2 ^ 32, (-1) % 2 ^ 32, .LEDC_AUTO_CLK⟩]
    ∧ ((1 : Int) % 2 ^ 32 = 1 ∧ (7 : Int) % 2 ^ 32 = 7 ∧ (99 : Int) % 2 ^ 32 = 99
        ∧ (-1 : Int) % 2 ^ 32 = 4294967295)
    ∧ (∃ rest : Trace,
        (mrb_esp32_ledc_write okDriver ledc_module
            [.fixnum 1, .fixnum 12, .fixnum (-5)] []).2
          = [] ++ .ledc_set_duty (1 % 2 ^ 32) (12 % 2 ^ 32) ((-5) % 2 ^ 32) :: rest)
    ∧ ((12 : Int) % 2 ^ 32 = 12 ∧ (-5 : Int) % 2 ^ 32 = 4294967291)
    ∧ ¬ (mrb_esp32_ledc_timer_config okDriver ledc_module
        [.fixnum 1, .fixnum 7, .fixnum 99, .nil] []).2 ≠ []
    ∧ mrb_esp32_ledc_timer_config okDriver ledc_module
        [.fixnum 1, .fixnum 7, .fixnum 99] []
      = (.raised .ArgumentError, []) :=
  ⟨(integer_check_is_only_validation okDriver ledc_module []).2.2.2.2.2.2.2.2.1 1 7 99 (-1),
   by decide,
   (integer_check_is_only_validation okDriver ledc_module []).2.2.2.2.2.2.2.2.2.2.1
     1 12 (-5),
   by decide,
   fun h => by
     have := ((integer_check_is_only_validation okDriver ledc_module []).1
       [.fixnum 1, .fixnum 7, .fixnum 99, .nil] rfl).1 h .nil (by simp)
     simp [mrb_fixnum_p] at this,
   (integer_check_is_only_validation okDriver ledc_module []).2.2.2.2.1
     [.fixnum 1, .fixnum 7, .fixnum 99] (by decide)⟩

end LEDC
